import Mathlib

/-!
Verification of the `xpo` Go package (`src/xpo.go`), a client library for the
XPO Logistics pickup-scheduling HTTP API.

Shallow embedding notes.

* Go structs become Lean structures with the same field names; `uint` becomes
  `Nat`, `float64` becomes `Float`, `time.Duration` (int64 nanoseconds) becomes
  `Int` wrapped into the int64 range where it is written.
* The stdlib JSON/XML codecs (`encoding/json`, `encoding/xml`) are external
  collaborators (spec §1).  They are modelled here by an executable JSON
  document type `JValue` with a parser `Json.parse`, per-record
  marshal/unmarshal functions mirroring the Go struct tags, and a small XML
  parser for the single fault shape the package decodes.
* The HTTP transport is a parameter: each call's outcome (`HttpResult`) is an
  input, and the model returns the trace of HTTP calls it performed
  (URL and timeout of each call) together with the log lines it emitted.
* Go errors are modelled by their message strings; `errors.Wrap(err, msg)`
  produces the message `msg ++ ": " ++ err` as in github.com/pkg/errors, and
  `errors.New(msg)` produces `msg`.
-/

set_option maxRecDepth 100000

/-- A JSON number literal as the Go codec distinguishes them: an integer
literal unmarshals into integer fields exactly, a literal with a fraction or
exponent only unmarshals into float fields. -/
inductive GoNum where
  | ofInt (i : Int)
  | ofFloat (f : Float)

/-- A JSON document.  Object fields are kept in order of appearance. -/
inductive JValue where
  | null
  | bool (b : Bool)
  | num (n : GoNum)
  | str (s : String)
  | arr (elems : List JValue)
  | obj (fields : List (String × JValue))

namespace Json

def isWs (c : Char) : Bool :=
  c = ' ' || c = '\t' || c = '\n' || c = '\r'

def skipWs : List Char → List Char
  | [] => []
  | c :: cs => if isWs c then skipWs cs else c :: cs

def hexVal (c : Char) : Option Nat :=
  if '0' ≤ c ∧ c ≤ '9' then some (c.toNat - 48)
  else if 'a' ≤ c ∧ c ≤ 'f' then some (c.toNat - 87)
  else if 'A' ≤ c ∧ c ≤ 'F' then some (c.toNat - 55)
  else none

def digitVal (c : Char) : Option Nat :=
  if '0' ≤ c ∧ c ≤ '9' then some (c.toNat - 48) else none

/-- Scan the body of a JSON string literal (after the opening quote), handling
the escape sequences of the JSON grammar.  Returns the decoded characters and
the remaining input after the closing quote. -/
def parseStringChars : List Char → Option (List Char × List Char)
  | [] => none
  | '"' :: rest => some ([], rest)
  | '\\' :: 'u' :: h1 :: h2 :: h3 :: h4 :: rest => do
      let a ← hexVal h1
      let b ← hexVal h2
      let c ← hexVal h3
      let d ← hexVal h4
      let (cs, rem) ← parseStringChars rest
      pure (Char.ofNat (((a * 16 + b) * 16 + c) * 16 + d) :: cs, rem)
  | '\\' :: e :: rest => do
      let c ← (match e with
        | '"' => some '"'
        | '\\' => some '\\'
        | '/' => some '/'
        | 'b' => some (Char.ofNat 8)
        | 'f' => some (Char.ofNat 12)
        | 'n' => some '\n'
        | 'r' => some '\r'
        | 't' => some '\t'
        | _ => none)
      let (cs, rem) ← parseStringChars rest
      pure (c :: cs, rem)
  | c :: rest => do
      let (cs, rem) ← parseStringChars rest
      pure (c :: cs, rem)

def takeDigits : List Char → (List Nat × List Char)
  | [] => ([], [])
  | c :: cs =>
    match digitVal c with
    | some d => let (ds, rest) := takeDigits cs; (d :: ds, rest)
    | none => ([], c :: cs)

def digitsToNat (ds : List Nat) : Nat :=
  ds.foldl (fun a d => a * 10 + d) 0

def mkFloat (neg : Bool) (mant : Nat) (decExp : Int) : Float :=
  let f := if decExp < 0 then Float.ofScientific mant true decExp.natAbs
           else Float.ofScientific mant false decExp.toNat
  if neg then -f else f

/-- Parse a JSON number literal, classifying it as an integer literal or a
float literal (fraction or exponent present). -/
def parseNumber (cs : List Char) : Option (GoNum × List Char) :=
  let (neg, cs1) := match cs with
    | '-' :: r => (true, r)
    | _ => (false, cs)
  let (ids, cs2) := takeDigits cs1
  if ids.isEmpty then none else
  let (hasFrac, fds, cs3) := match cs2 with
    | '.' :: r => let (ds, rest) := takeDigits r; (true, ds, rest)
    | _ => (false, [], cs2)
  if hasFrac ∧ fds.isEmpty then none else
  let expPart : Option (Bool × Option Int × List Char) := match cs3 with
    | 'e' :: r | 'E' :: r =>
        let (esign, r1) := match r with
          | '+' :: r' => (false, r')
          | '-' :: r' => (true, r')
          | _ => (false, r)
        let (eds, r2) := takeDigits r1
        if eds.isEmpty then none
        else
          let e : Int := digitsToNat eds
          some (true, some (if esign then -e else e), r2)
    | _ => some (false, none, cs3)
  match expPart with
  | none => none
  | some (hasExp, expVal, rest) =>
    if hasFrac ∨ hasExp then
      let mant := digitsToNat (ids ++ fds)
      let decExp : Int := (expVal.getD 0) - (fds.length : Int)
      some (.ofFloat (mkFloat neg mant decExp), rest)
    else
      let n : Int := digitsToNat ids
      some (.ofInt (if neg then -n else n), rest)

mutual

/-- Recursive-descent JSON value parser; `fuel` bounds the nesting depth. -/
def parseValue : Nat → List Char → Option (JValue × List Char)
  | 0, _ => none
  | fuel + 1, cs =>
    match skipWs cs with
    | 'n' :: 'u' :: 'l' :: 'l' :: rest => some (.null, rest)
    | 't' :: 'r' :: 'u' :: 'e' :: rest => some (.bool true, rest)
    | 'f' :: 'a' :: 'l' :: 's' :: 'e' :: rest => some (.bool false, rest)
    | '"' :: rest => do
        let (cs', rem) ← parseStringChars rest
        pure (.str (String.mk cs'), rem)
    | '[' :: rest =>
        (match skipWs rest with
         | ']' :: rem => some (.arr [], rem)
         | rest' => do
             let (xs, rem) ← parseElems fuel rest'
             pure (.arr xs, rem))
    | '\x7b' :: rest =>
        (match skipWs rest with
         | '\x7d' :: rem => some (.obj [], rem)
         | rest' => do
             let (ms, rem) ← parseMembers fuel rest'
             pure (.obj ms, rem))
    | cs' => do
        let (n, rem) ← parseNumber cs'
        pure (.num n, rem)

/-- Parse the members of a JSON object after the opening brace (at least one
member), consuming the closing brace. -/
def parseMembers : Nat → List Char → Option (List (String × JValue) × List Char)
  | 0, _ => none
  | fuel + 1, cs =>
    match skipWs cs with
    | '"' :: rest => do
        let (kcs, rem1) ← parseStringChars rest
        match skipWs rem1 with
        | ':' :: rem2 => do
            let (v, rem3) ← parseValue fuel rem2
            (match skipWs rem3 with
             | ',' :: rem4 => do
                 let (ms, rem5) ← parseMembers fuel rem4
                 pure ((String.mk kcs, v) :: ms, rem5)
             | '\x7d' :: rem4 => pure ([(String.mk kcs, v)], rem4)
             | _ => none)
        | _ => none
    | _ => none

/-- Parse the elements of a JSON array after the opening bracket (at least one
element), consuming the closing bracket. -/
def parseElems : Nat → List Char → Option (List JValue × List Char)
  | 0, _ => none
  | fuel + 1, cs => do
      let (v, rem) ← parseValue fuel cs
      match skipWs rem with
      | ',' :: rem2 => do
          let (xs, rem3) ← parseElems fuel rem2
          pure (v :: xs, rem3)
      | ']' :: rem2 => pure ([v], rem2)
      | _ => none

end

/-- Parse a whole JSON document.  Like the Go codec, trailing content other
than whitespace is an error. -/
def parse (s : String) : Option JValue := do
  let (v, rem) ← parseValue (s.length + 1) s.data
  if (skipWs rem).isEmpty then pure v else none

end Json

example : Json.parse "  null " = some .null := rfl

/-! ### The record types of src/xpo.go (lines 73-189)

Field names follow the Go structs; `uint` becomes `Nat`, `float64` becomes
`Float`.  Go's zero values (empty string, `false`, `0`) appear as the
defaults used by the decoders for absent or `null` fields. -/

/-- `Weight` (src/xpo.go:158): a single float field, tag `weight`. -/
structure Weight where
  Weight : Float

/-- `Email` (src/xpo.go:129): tag `emailAddr`. -/
structure Email where
  EmailAddr : String
deriving DecidableEq

/-- `Phone` (src/xpo.go:135): tag `phoneNbr`. -/
structure Phone where
  PhoneNbr : String
deriving DecidableEq

/-- `Contact` (src/xpo.go:120). -/
structure Contact where
  CompanyName : String
  Email : Email
  FullName : String
  Phone : Phone
deriving DecidableEq

/-- `Shipper` (src/xpo.go:100). -/
structure Shipper where
  AddressLine1 : String
  CityName : String
  StateCd : String
  Name : String
  AddressLine2 : String
  PostalCd : String
  Phone : Phone
deriving DecidableEq

/-- `Requestor` (src/xpo.go:114). -/
structure Requestor where
  Contact : Contact
  RoleCd : String
deriving DecidableEq

/-- `PkupItem` (src/xpo.go:140). -/
structure PkupItem where
  TotWeight : Weight
  DestZip6 : String
  LoosePiecesCnt : Nat
  PalletCnt : Nat
  GarntInd : Bool
  HazmatInd : Bool
  FrzbleInd : Bool
  HolDlvrInd : Bool
  FoodInd : Bool
  BlkLiquidInd : Bool
  Remarks : String

/-- `PickupRqstInfo` (src/xpo.go:80). -/
structure PickupRqstInfo where
  PkupDate : String
  ReadyTime : String
  CloseTime : String
  PkupItem : List PkupItem
  SpecialEquipmentCd : String
  InsidePkupInd : Bool
  Shipper : Shipper
  Requestor : Requestor
  Contact : Contact
  Remarks : String
  TotPalletCnt : Nat
  TotLoosePiecesCnt : Nat
  TotWeight : Weight

/-- `PickupRequest` (src/xpo.go:75): the single-field serialization envelope. -/
structure PickupRequest where
  PickupRqstInfo : PickupRqstInfo

/-- The anonymous `Data` struct nested in `SuccessfulPickupResponse`
(src/xpo.go:166), tag `confirmationNbr`. -/
structure SuccessData where
  ConfirmationNbr : String
deriving DecidableEq

/-- `SuccessfulPickupResponse` (src/xpo.go:163). -/
structure SuccessfulPickupResponse where
  Code : String
  TransactionTimestamp : String
  Data : SuccessData
deriving DecidableEq

/-- `ErrorPickupResponse` (src/xpo.go:174), the XML fault shape.  The Go
struct's `XMLName xml.Name` field is codec plumbing (it pins the root element
name to `fault`) and is represented by the root-name check in `parseFault`
rather than by a field.  The Go field `Type` is spelled `Type'` because
`Type` is a Lean keyword. -/
structure ErrorPickupResponse where
  Code : String
  Type' : String
  Message : String
  Description : String
deriving DecidableEq

/-- `TokenResponse` (src/xpo.go:183). -/
structure TokenResponse where
  BearerToken : String
  RefreshToken : String
  Scope : String
  TokenType : String
  ExpiresIn : Nat
deriving DecidableEq

/-! ### Go zero values -/

def weightZero : Weight := ⟨0.0⟩

def emailZero : Email := ⟨""⟩

def phoneZero : Phone := ⟨""⟩

def contactZero : Contact := ⟨"", emailZero, "", phoneZero⟩

def shipperZero : Shipper := ⟨"", "", "", "", "", "", phoneZero⟩

def requestorZero : Requestor := ⟨contactZero, ""⟩

def successDataZero : SuccessData := ⟨""⟩

def successResponseZero : SuccessfulPickupResponse := ⟨"", "", successDataZero⟩

def faultZero : ErrorPickupResponse := ⟨"", "", "", ""⟩

def tokenResponseZero : TokenResponse := ⟨"", "", "", "", 0⟩

/-! ### json.Marshal of the outbound records

`encoding/json` emits every field of these structs (no `omitempty` tags),
in declaration order, under the tag names of src/xpo.go.  Marshalling is
modelled at the JSON-document level; producing the byte string from the
document is the stdlib codec's job (spec §1 places the codecs out of scope).
On these record types `json.Marshal` cannot fail except for non-finite
floats, a distinction this model does not track, so it is total here. -/

def phoneToJson (p : Phone) : JValue :=
  .obj [("phoneNbr", .str p.PhoneNbr)]

def emailToJson (e : Email) : JValue :=
  .obj [("emailAddr", .str e.EmailAddr)]

def contactToJson (c : Contact) : JValue :=
  .obj [("companyName", .str c.CompanyName),
        ("email", emailToJson c.Email),
        ("fullName", .str c.FullName),
        ("phone", phoneToJson c.Phone)]

def shipperToJson (s : Shipper) : JValue :=
  .obj [("addressLine1", .str s.AddressLine1),
        ("cityName", .str s.CityName),
        ("stateCd", .str s.StateCd),
        ("name", .str s.Name),
        ("addressLine2", .str s.AddressLine2),
        ("postalCd", .str s.PostalCd),
        ("phone", phoneToJson s.Phone)]

def requestorToJson (r : Requestor) : JValue :=
  .obj [("contact", contactToJson r.Contact),
        ("roleCd", .str r.RoleCd)]

def weightToJson (w : Weight) : JValue :=
  .obj [("weight", .num (.ofFloat w.Weight))]

def pkupItemToJson (i : PkupItem) : JValue :=
  .obj [("totWeight", weightToJson i.TotWeight),
        ("destZip6", .str i.DestZip6),
        ("loosePiecesCnt", .num (.ofInt i.LoosePiecesCnt)),
        ("palletCnt", .num (.ofInt i.PalletCnt)),
        ("garntInd", .bool i.GarntInd),
        ("hazmatInd", .bool i.HazmatInd),
        ("frzbleInd", .bool i.FrzbleInd),
        ("holDlvrInd", .bool i.HolDlvrInd),
        ("foodInd", .bool i.FoodInd),
        ("blkLiquidInd", .bool i.BlkLiquidInd),
        ("remarks", .str i.Remarks)]

def pickupRqstInfoToJson (x : PickupRqstInfo) : JValue :=
  .obj [("pkupDate", .str x.PkupDate),
        ("readyTime", .str x.ReadyTime),
        ("closeTime", .str x.CloseTime),
        ("pkupItem", .arr (x.PkupItem.map pkupItemToJson)),
        ("specialEquipmentCd", .str x.SpecialEquipmentCd),
        ("insidePkupInd", .bool x.InsidePkupInd),
        ("shipper", shipperToJson x.Shipper),
        ("requestor", requestorToJson x.Requestor),
        ("contact", contactToJson x.Contact),
        ("remarks", .str x.Remarks),
        ("totPalletCnt", .num (.ofInt x.TotPalletCnt)),
        ("totLoosePiecesCnt", .num (.ofInt x.TotLoosePiecesCnt)),
        ("totWeight", weightToJson x.TotWeight)]

def pickupRequestToJson (p : PickupRequest) : JValue :=
  .obj [("pickupRqstInfo", pickupRqstInfoToJson p.PickupRqstInfo)]

/-! ### json.Unmarshal into these records

Mirrors `encoding/json` decoding into a fresh (zero-valued) target:
a document that is not an object (and not `null`) is a type error; `null`
leaves the target at its zero value; for an object, each struct field is
looked up by its tag name, an absent field keeps the zero value, and a
present field whose document shape does not match the field's type is a
type error.  (Go also matches keys case-insensitively as a fallback and
lets a later duplicate key win; the encoders here emit exact names and no
duplicates, and every concrete body below uses exact names, so first-match
exact lookup is the behaviour exercised.) -/

def decString : JValue → Option String
  | .str s => some s
  | .null => some ""
  | _ => none

def decBool : JValue → Option Bool
  | .bool b => some b
  | .null => some false
  | _ => none

/-- A `uint` field accepts only an integer literal ≥ 0 (Go parses the literal
with `strconv.ParseUint`; a fraction/exponent literal or a negative is an
error). -/
def decNat : JValue → Option Nat
  | .num (.ofInt i) => if 0 ≤ i then some i.toNat else none
  | .null => some 0
  | _ => none

/-- A `float64` field accepts any number literal. -/
def decFloat : JValue → Option Float
  | .num (.ofFloat f) => some f
  | .num (.ofInt i) => some (Float.ofInt i)
  | .null => some 0.0
  | _ => none

/-- Decode one struct field: absent keeps the zero value `dflt`, present runs
the field decoder. -/
def jField (fs : List (String × JValue)) (key : String)
    (dec : JValue → Option α) (dflt : α) : Option α :=
  match fs.lookup key with
  | none => some dflt
  | some v => dec v

def phoneFromJson : JValue → Option Phone
  | .null => some phoneZero
  | .obj fs => do
      let n ← jField fs "phoneNbr" decString ""
      pure ⟨n⟩
  | _ => none

def emailFromJson : JValue → Option Email
  | .null => some emailZero
  | .obj fs => do
      let a ← jField fs "emailAddr" decString ""
      pure ⟨a⟩
  | _ => none

def contactFromJson : JValue → Option Contact
  | .null => some contactZero
  | .obj fs => do
      let cn ← jField fs "companyName" decString ""
      let em ← jField fs "email" emailFromJson emailZero
      let fn ← jField fs "fullName" decString ""
      let ph ← jField fs "phone" phoneFromJson phoneZero
      pure ⟨cn, em, fn, ph⟩
  | _ => none

def shipperFromJson : JValue → Option Shipper
  | .null => some shipperZero
  | .obj fs => do
      let a1 ← jField fs "addressLine1" decString ""
      let cy ← jField fs "cityName" decString ""
      let st ← jField fs "stateCd" decString ""
      let nm ← jField fs "name" decString ""
      let a2 ← jField fs "addressLine2" decString ""
      let pc ← jField fs "postalCd" decString ""
      let ph ← jField fs "phone" phoneFromJson phoneZero
      pure ⟨a1, cy, st, nm, a2, pc, ph⟩
  | _ => none

def requestorFromJson : JValue → Option Requestor
  | .null => some requestorZero
  | .obj fs => do
      let ct ← jField fs "contact" contactFromJson contactZero
      let rc ← jField fs "roleCd" decString ""
      pure ⟨ct, rc⟩
  | _ => none

def weightFromJson : JValue → Option Weight
  | .null => some weightZero
  | .obj fs => do
      let w ← jField fs "weight" decFloat 0.0
      pure ⟨w⟩
  | _ => none

def pkupItemFromJson : JValue → Option PkupItem
  | .null => some ⟨weightZero, "", 0, 0, false, false, false, false, false, false, ""⟩
  | .obj fs => do
      let tw ← jField fs "totWeight" weightFromJson weightZero
      let dz ← jField fs "destZip6" decString ""
      let lp ← jField fs "loosePiecesCnt" decNat 0
      let pc ← jField fs "palletCnt" decNat 0
      let ga ← jField fs "garntInd" decBool false
      let hz ← jField fs "hazmatInd" decBool false
      let fz ← jField fs "frzbleInd" decBool false
      let hd ← jField fs "holDlvrInd" decBool false
      let fo ← jField fs "foodInd" decBool false
      let bl ← jField fs "blkLiquidInd" decBool false
      let rm ← jField fs "remarks" decString ""
      pure ⟨tw, dz, lp, pc, ga, hz, fz, hd, fo, bl, rm⟩
  | _ => none

/-- Decode a JSON array element-wise (a slice field; `null` leaves the nil
slice, which `List` renders as `[]`). -/
def decodeElems (dec : JValue → Option α) : List JValue → Option (List α)
  | [] => some []
  | v :: vs => do
      let x ← dec v
      let xs ← decodeElems dec vs
      pure (x :: xs)

def decList (dec : JValue → Option α) : JValue → Option (List α)
  | .arr es => decodeElems dec es
  | .null => some []
  | _ => none

def pickupRqstInfoFromJson : JValue → Option PickupRqstInfo
  | .null => some ⟨"", "", "", [], "", false, shipperZero, requestorZero,
                   contactZero, "", 0, 0, weightZero⟩
  | .obj fs => do
      let pd ← jField fs "pkupDate" decString ""
      let rt ← jField fs "readyTime" decString ""
      let ct ← jField fs "closeTime" decString ""
      let pi ← jField fs "pkupItem" (decList pkupItemFromJson) []
      let se ← jField fs "specialEquipmentCd" decString ""
      let ip ← jField fs "insidePkupInd" decBool false
      let sh ← jField fs "shipper" shipperFromJson shipperZero
      let rq ← jField fs "requestor" requestorFromJson requestorZero
      let cc ← jField fs "contact" contactFromJson contactZero
      let rm ← jField fs "remarks" decString ""
      let tp ← jField fs "totPalletCnt" decNat 0
      let tl ← jField fs "totLoosePiecesCnt" decNat 0
      let tw ← jField fs "totWeight" weightFromJson weightZero
      pure ⟨pd, rt, ct, pi, se, ip, sh, rq, cc, rm, tp, tl, tw⟩
  | _ => none

def successDataFromJson : JValue → Option SuccessData
  | .null => some successDataZero
  | .obj fs => do
      let c ← jField fs "confirmationNbr" decString ""
      pure ⟨c⟩
  | _ => none

def successResponseFromJson : JValue → Option SuccessfulPickupResponse
  | .null => some successResponseZero
  | .obj fs => do
      let c ← jField fs "code" decString ""
      let t ← jField fs "transactionTimestamp" decString ""
      let d ← jField fs "data" successDataFromJson successDataZero
      pure ⟨c, t, d⟩
  | _ => none

def tokenResponseFromJson : JValue → Option TokenResponse
  | .null => some tokenResponseZero
  | .obj fs => do
      let a ← jField fs "access_token" decString ""
      let r ← jField fs "refresh_token" decString ""
      let s ← jField fs "scope" decString ""
      let t ← jField fs "token_type" decString ""
      let e ← jField fs "expires_in" decNat 0
      pure ⟨a, r, s, t, e⟩
  | _ => none

/-- `json.Unmarshal(body, &response)` for `SuccessfulPickupResponse`:
parse the bytes, then decode the document. -/
def decodeSuccessBody (body : String) : Option SuccessfulPickupResponse :=
  (Json.parse body).bind successResponseFromJson

/-- `json.Unmarshal(body, &responseData)` for `TokenResponse`. -/
def decodeTokenBody (body : String) : Option TokenResponse :=
  (Json.parse body).bind tokenResponseFromJson

/-! ### xml.Unmarshal into ErrorPickupResponse

Models `encoding/xml` decoding of the one shape the package reads: a root
element whose local name is `fault` (the `XMLName xml:"fault"` field; a
namespace prefix such as `am:` is allowed, matching Go's local-name match
for tags without a namespace), with flat child elements matched by local
name into `code`/`type`/`message`/`description`; an absent child keeps the
zero value "".  Anything that is not such a document — in particular any
JSON body or plain text — is a decode error (`none`). -/

namespace Xml

def isNameChar (c : Char) : Bool :=
  c.isAlpha || c.isDigit || c = ':' || c = '_' || c = '-' || c = '.'

def takeName : List Char → (List Char × List Char)
  | [] => ([], [])
  | c :: cs =>
    if isNameChar c then
      let (n, r) := takeName cs
      (c :: n, r)
    else ([], c :: cs)

/-- The local part of a possibly prefixed XML name (`am:fault` → `fault`):
the characters after the last `:`. -/
def localName (n : String) : String :=
  String.mk ((n.data.reverse.takeWhile (fun c => c != ':')).reverse)

/-- Skip the rest of a start tag (attributes) up to and past `>`. -/
def skipToGt : List Char → Option (List Char)
  | [] => none
  | c :: cs => if c = '>' then some cs else skipToGt cs

/-- Character data up to the next `<`. -/
def takeText : List Char → (List Char × List Char)
  | [] => ([], [])
  | c :: cs =>
    if c = '<' then ([], c :: cs)
    else
      let (t, r) := takeText cs
      (c :: t, r)

/-- Parse one flat child element `<name>text</name>`; the end tag must repeat
the start tag's name.  Returns (local name, text). -/
def parseChild (cs : List Char) : Option ((String × String) × List Char) :=
  match cs with
  | '<' :: rest =>
    let (n, r1) := takeName rest
    if n.isEmpty then none else
    match skipToGt r1 with
    | none => none
    | some r2 =>
      let (txt, r3) := takeText r2
      match r3 with
      | '<' :: '/' :: r4 =>
        let (n2, r5) := takeName r4
        if n2 = n then
          match r5 with
          | '>' :: r6 => some ((localName (String.mk n), String.mk txt), r6)
          | _ => none
        else none
      | _ => none
  | _ => none

/-- Parse the children of the root element, stopping at the closing tag. -/
def parseChildren : Nat → List Char → Option (List (String × String) × List Char)
  | 0, _ => none
  | fuel + 1, cs =>
    match Json.skipWs cs with
    | '<' :: '/' :: rest => some ([], '<' :: '/' :: rest)
    | cs' => do
        let (kv, rem) ← parseChild cs'
        let (rest, rem2) ← parseChildren fuel rem
        pure (kv :: rest, rem2)

def childText (kvs : List (String × String)) (k : String) : String :=
  (((kvs.find? (fun kv => kv.1 == k)).map (fun kv => kv.2)).getD "")

end Xml

/-- `xml.Unmarshal(body, &errorData)` for `ErrorPickupResponse`. -/
def parseFault (body : String) : Option ErrorPickupResponse :=
  match Json.skipWs body.data with
  | '<' :: rest => do
    let (n, r1) := Xml.takeName rest
    if Xml.localName (String.mk n) = "fault" then
      match Xml.skipToGt r1 with
      | none => none
      | some r2 => do
        let (kvs, r3) ← Xml.parseChildren (body.length + 1) r2
        match r3 with
        | '<' :: '/' :: r4 =>
          let (n2, r5) := Xml.takeName r4
          if n2 = n then
            match r5 with
            | '>' :: r6 =>
              if (Json.skipWs r6).isEmpty then
                some ⟨Xml.childText kvs "code", Xml.childText kvs "type",
                      Xml.childText kvs "message", Xml.childText kvs "description"⟩
              else none
            | _ => none
          else none
        | _ => none
    else none
  | _ => none

/-! ### Package state and configuration (src/xpo.go lines 36-64, 191-212) -/

def xpoTokenURL : String := "https://api.ltl.xpo.com/token"

def xpoTestURL : String := "https://api.ltl.xpo.com/1.0/cust-pickup-requests"

def xpoProductionURL : String := "https://api.ltl.xpo.com/1.0/cust-pickup-requests?testMode=Y"

/-- `time.Second` in nanoseconds; `time.Duration` is an int64 nanosecond
count. -/
def nsPerSecond : Int := 1000000000

/-- int64 two's-complement wrap-around, for `time.Duration` arithmetic. -/
def int64Wrap (i : Int) : Int :=
  (i + 2 ^ 63) % 2 ^ 64 - 2 ^ 63

/-- The package-level mutable variables: `xpoURL` (src/xpo.go:47), `timeout`
(src/xpo.go:52, nanoseconds), and the credentials (src/xpo.go:56-64).  The
defaults are the `var` initializers: test URL, 10 seconds, empty strings. -/
structure XpoState where
  xpoURL : String := xpoTestURL
  timeout : Int := 10 * nsPerSecond
  username : String := ""
  password : String := ""
  accessToken : String := ""
deriving DecidableEq

def initialState : XpoState := {}

/-- `SetProductionMode` (src/xpo.go:192): `if yes { xpoURL = xpoProductionURL }`
— note there is no else branch. -/
def SetProductionMode (yes : Bool) (s : XpoState) : XpoState :=
  if yes then { s with xpoURL := xpoProductionURL } else s

/-- `SetTimeout` (src/xpo.go:201): `timeout = time.Duration(seconds * time.Second)`
— the duration-typed argument is multiplied by `time.Second` (int64
multiplication, wrapping on overflow). -/
def SetTimeout (seconds : Int) (s : XpoState) : XpoState :=
  { s with timeout := int64Wrap (seconds * nsPerSecond) }

/-- `SetCredentials` (src/xpo.go:207). -/
def SetCredentials (u p t : String) (s : XpoState) : XpoState :=
  { s with username := u, password := p, accessToken := t }

/-! ### The HTTP transport as a parameter -/

/-- The outcome of one HTTP POST, supplied by the environment: `httpClient.Do`
failure, `ioutil.ReadAll` failure, or a response body. -/
inductive HttpResult where
  | doError (msg : String)
  | readError (msg : String)
  | body (s : String)
deriving DecidableEq

/-- One outbound HTTP call as observed by the environment: the URL targeted
and the `http.Client` timeout in force.  (Method is always POST; headers and
request bodies are built from constants and the marshalled payload and are
not needed by any claim.) -/
structure HttpCall where
  url : String
  timeout : Int
deriving DecidableEq

/-! ### getRequestToken (src/xpo.go:300-346) -/

/-- Stands in for the message of the `encoding/json` error that
`getRequestToken` returns unwrapped when the token body does not parse. -/
def jsonUnmarshalErrorText : String := "invalid character in JSON input"

/-- Stands in for the message of the `encoding/xml` error produced when the
response body matches neither shape. -/
def xmlUnmarshalErrorText : String := "XML syntax error"

/-- Result of `getRequestToken`: the Go `(bearerToken string, err error)`
pair collapsed to `Except`, plus the HTTP calls made and log lines written. -/
structure TokenStep where
  bearer : Except String String
  calls : List HttpCall
  logs : List String

/-- `getRequestToken` (src/xpo.go:300): builds the form-encoded token request
(constants plus the stored credentials — note no presence check on them),
POSTs it to `xpoTokenURL` with the client timeout, reads the body, JSON-parses
it into `TokenResponse`, and rejects an empty bearer token (logging the body
first).  Transport and body-read errors are returned as-is. -/
def getRequestToken (s : XpoState) (res : HttpResult) : TokenStep :=
  let call : HttpCall := { url := xpoTokenURL, timeout := s.timeout }
  match res with
  | .doError m => ⟨.error m, [call], []⟩
  | .readError m => ⟨.error m, [call], []⟩
  | .body b =>
    match decodeTokenBody b with
    | none => ⟨.error jsonUnmarshalErrorText, [call], []⟩
    | some tr =>
      if tr.BearerToken = "" then
        ⟨.error "could not get bearer token from response body", [call], [b]⟩
      else
        ⟨.ok tr.BearerToken, [call], []⟩

/-! ### RequestPickup (src/xpo.go:216-296) -/

/-- Result of `RequestPickup`: the Go named returns
`(response SuccessfulPickupResponse, err error)` (with `err = none` for a
nil error), plus the HTTP calls made and the log lines written. -/
structure PickupRun where
  response : SuccessfulPickupResponse
  err : Option String
  calls : List HttpCall
  logs : List String
deriving DecidableEq

/-- Models `log.Printf("%+v", errorData)` / `log.Println(errorData)`:
one log line rendering the parsed fault fields. -/
def formatFault (f : ErrorPickupResponse) : String :=
  "fault Code:" ++ f.Code ++ " Type:" ++ f.Type' ++ " Message:" ++ f.Message
    ++ " Description:" ++ f.Description

/-- `RequestPickup` (src/xpo.go:216).  Faithful to the source's control flow:

* marshals the `PickupRequest` envelope (total at the document level);
* src lines 230-232: when `username`, `password` or `accessToken` is empty an
  error is assigned to `err`, but there is **no** `return`; the very next
  statement (`bearerToken, err := getRequestToken()`) overwrites `err`, so
  the assignment is dead and execution continues unconditionally — the model
  therefore proceeds straight to the token exchange;
* on token-step error, returns the error wrapped with
  "xpo.RequestPickup - could not get token";
* POSTs to `xpoURL` with the client timeout; transport / body-read failures
  are wrapped ("could not make post request" / "could not read response");
* JSON-decodes the body as the success shape; on failure XML-decodes it as
  the fault shape: both failing gives the wrapped unmarshal error, a parsed
  fault is logged and its `Description` returned as the error, unwrapped
  (`errors.New(errorData.Description)`, src/xpo.go:273);
* a parsed success body with an empty confirmation number logs the failure
  tag, the raw body, and a best-effort fault parse (`xml.Unmarshal` with its
  error ignored, src/xpo.go:284), and returns the
  "xpo.RequestPickup - pickup request failed" error with the parsed response
  still in the named return;
* otherwise returns the parsed response and a nil error. -/
def RequestPickup (pri : PickupRqstInfo) (s : XpoState)
    (tokenRes pickupRes : HttpResult) : PickupRun :=
  let _jsonBody := pickupRequestToJson { PickupRqstInfo := pri }
  let tok := getRequestToken s tokenRes
  match tok.bearer with
  | .error e =>
      { response := successResponseZero,
        err := some ("xpo.RequestPickup - could not get token: " ++ e),
        calls := tok.calls, logs := tok.logs }
  | .ok _bearerToken =>
    let call2 : HttpCall := { url := s.xpoURL, timeout := s.timeout }
    let calls := tok.calls ++ [call2]
    match pickupRes with
    | .doError m =>
        { response := successResponseZero,
          err := some ("xpo.RequestPickup - could not make post request: " ++ m),
          calls := calls, logs := tok.logs }
    | .readError m =>
        { response := successResponseZero,
          err := some ("xpo.RequestPickup - could not read response: " ++ m),
          calls := calls, logs := tok.logs }
    | .body body =>
      match decodeSuccessBody body with
      | none =>
        (match parseFault body with
         | none =>
             { response := successResponseZero,
               err := some ("xpo.RequestPickup - could not unmarshal response: "
                 ++ xmlUnmarshalErrorText),
               calls := calls, logs := tok.logs }
         | some errorData =>
             { response := successResponseZero,
               err := some errorData.Description,
               calls := calls, logs := tok.logs ++ [formatFault errorData] })
      | some response =>
        if response.Data.ConfirmationNbr = "" then
          let errorData := (parseFault body).getD faultZero
          { response := response,
            err := some "xpo.RequestPickup - pickup request failed",
            calls := calls,
            logs := tok.logs ++ ["xpo.RequestPickup - pickup request failed",
                                 body, formatFault errorData] }
        else
          { response := response, err := none, calls := calls, logs := tok.logs }

/-! ### Canned inputs from the spec (§8) and concrete run ingredients -/

/-- The canned success body of spec §8:
`{"code":"0","transactionTimestamp":"123","data":{"confirmationNbr":"ABC123"}}`. -/
def cannedSuccessBody : String :=
  "\x7b\"code\":\"0\",\"transactionTimestamp\":\"123\",\"data\":\x7b\"confirmationNbr\":\"ABC123\"\x7d\x7d"

/-- The canned success-shaped body with an empty confirmation number. -/
def cannedEmptyConfBody : String :=
  "\x7b\"code\":\"0\",\"transactionTimestamp\":\"123\",\"data\":\x7b\"confirmationNbr\":\"\"\x7d\x7d"

/-- The canned XML fault body of spec §8. -/
def cannedFaultBody : String :=
  "<fault><code>400</code><type>Validation</type><message>Bad</message><description>Missing shipper</description></fault>"

/-- A body that is neither valid JSON nor valid XML. -/
def garbageBody : String := "neither json nor xml"

/-- A well-formed token-endpoint response body carrying a bearer token. -/
def cannedTokenBody : String := "\x7b\"access_token\":\"tok123\"\x7d"

/-- An all-zero pickup request, used as a concrete input for runs whose
outcome does not depend on the payload. -/
def priZero : PickupRqstInfo :=
  ⟨"", "", "", [], "", false, shipperZero, requestorZero, contactZero, "", 0, 0, weightZero⟩

/-- A state with credentials set, as `SetCredentials("user", "pass", "acct")`
leaves it. -/
def stateWithCreds : XpoState := SetCredentials "user" "pass" "acct" initialState

example : decodeSuccessBody cannedSuccessBody = some ⟨"0", "123", ⟨"ABC123"⟩⟩ := by decide

example : parseFault cannedFaultBody = some ⟨"400", "Validation", "Bad", "Missing shipper"⟩ := by decide

example : decodeTokenBody cannedTokenBody = some ⟨"tok123", "", "", "", 0⟩ := by decide

example : decodeSuccessBody garbageBody = none := by decide

example : parseFault garbageBody = none := by decide

example : parseFault cannedSuccessBody = none := by decide

example : decodeSuccessBody cannedFaultBody = none := by decide

example : decodeSuccessBody cannedEmptyConfBody = some ⟨"0", "123", ⟨""⟩⟩ := by decide

/-! ### Round-trip lemmas for the outbound records -/

theorem phoneRoundtrip (p : Phone) : phoneFromJson (phoneToJson p) = some p := rfl

theorem emailRoundtrip (e : Email) : emailFromJson (emailToJson e) = some e := rfl

theorem contactRoundtrip (c : Contact) : contactFromJson (contactToJson c) = some c := rfl

theorem shipperRoundtrip (s : Shipper) : shipperFromJson (shipperToJson s) = some s := rfl

theorem requestorRoundtrip (r : Requestor) : requestorFromJson (requestorToJson r) = some r := rfl

theorem weightRoundtrip (w : Weight) : weightFromJson (weightToJson w) = some w := rfl

theorem pkupItemRoundtrip (i : PkupItem) : pkupItemFromJson (pkupItemToJson i) = some i := rfl

theorem decodeElemsMap (dec : JValue → Option α) (enc : α → JValue)
    (h : ∀ a, dec (enc a) = some a) (xs : List α) :
    decodeElems dec (xs.map enc) = some xs := by
  induction xs with
  | nil => rfl
  | cons a as ih => simp [decodeElems, h a, ih]

/-- C6: for every `PickupRqstInfo` value (with its nested `Shipper`,
`Requestor`, `Contact`, `PkupItem` and `Weight` records), serializing it to
JSON as `json.Marshal` does and deserializing the resulting document through
the identical record definitions yields the original value; zero-value
optional fields are still serialized (no `omitempty`) and decode back to the
same zero values. -/
theorem pickupRqstInfo_json_roundtrip (x : PickupRqstInfo) :
    pickupRqstInfoFromJson (pickupRqstInfoToJson x) = some x := by
  have h : decList pkupItemFromJson (JValue.arr (x.PkupItem.map pkupItemToJson))
      = some x.PkupItem := by
    simp [decList, decodeElemsMap pkupItemFromJson pkupItemToJson pkupItemRoundtrip]
  simp [pickupRqstInfoToJson, pickupRqstInfoFromJson, jField, List.lookup, h,
    decString, decBool, decNat, shipperRoundtrip, requestorRoundtrip,
    contactRoundtrip, weightRoundtrip]

/-- Every run of `RequestPickup` performs the token call first, with the
configured timeout, and performs the pickup call — to the configured
`xpoURL`, with the same timeout — exactly when the token step succeeded. -/
theorem requestPickup_calls_shape (pri : PickupRqstInfo) (s : XpoState)
    (tr pr : HttpResult) :
    (RequestPickup pri s tr pr).calls = [⟨xpoTokenURL, s.timeout⟩]
    ∨ (RequestPickup pri s tr pr).calls
        = [⟨xpoTokenURL, s.timeout⟩, ⟨s.xpoURL, s.timeout⟩] := by
  rcases tr with m | m | b
  · left; rfl
  · left; rfl
  · rcases h : decodeTokenBody b with _ | t
    · left; simp [RequestPickup, getRequestToken, h]
    · by_cases hb : t.BearerToken = ""
      · left; simp [RequestPickup, getRequestToken, h, hb]
      · rcases pr with m2 | m2 | body
        · right; simp [RequestPickup, getRequestToken, h, hb]
        · right; simp [RequestPickup, getRequestToken, h, hb]
        · rcases hd : decodeSuccessBody body with _ | resp
          · rcases hf : parseFault body with _ | f <;>
              (right; simp [RequestPickup, getRequestToken, h, hb, hd, hf])
          · by_cases hc : resp.Data.ConfirmationNbr = "" <;>
              (right; simp [RequestPickup, getRequestToken, h, hb, hd, hc])

/-- C1 (code bug in src/xpo.go:229-232): when `RequestPickup` is called with
username, password and access token all unset, the code assigns the
configuration error to `err` but does not `return`; the assignment is
immediately overwritten and execution continues.  Evaluating the model at
this failing input: the token-exchange HTTP call and the pickup HTTP call are
both made, and with well-formed responses the call even returns a nil error —
rather than failing with the ConfigurationError before any HTTP call as the
claim (and the code's own intent) states. -/
theorem requestPickup_empty_credentials_still_makes_calls :
    initialState.username = "" ∧ initialState.password = ""
    ∧ initialState.accessToken = ""
    ∧ (RequestPickup priZero initialState (.body cannedTokenBody)
        (.body cannedSuccessBody)).calls
      = [⟨xpoTokenURL, 10 * nsPerSecond⟩, ⟨xpoTestURL, 10 * nsPerSecond⟩]
    ∧ (RequestPickup priZero initialState (.body cannedTokenBody)
        (.body cannedSuccessBody)).err = none := by
  refine ⟨rfl, rfl, rfl, ?_, ?_⟩ <;> decide

/-- C2 counterexample: `SetProductionMode(false)` does not restore the test
URL.  After `SetProductionMode(true)` followed by `SetProductionMode(false)`,
the stored URL is still the production URL and a subsequent submission's
outbound pickup call still targets the production URL, contradicting the
claim that after a `false` toggle every subsequent submission targets the
test URL. -/
theorem setProductionMode_false_noop_counterexample :
    (SetProductionMode false (SetProductionMode true initialState)).xpoURL
      = xpoProductionURL
    ∧ (RequestPickup priZero
        (SetCredentials "user" "pass" "acct"
          (SetProductionMode false (SetProductionMode true initialState)))
        (.body cannedTokenBody) (.body cannedSuccessBody)).calls
      = [⟨xpoTokenURL, 10 * nsPerSecond⟩, ⟨xpoProductionURL, 10 * nsPerSecond⟩] := by
  refine ⟨rfl, ?_⟩; decide

/-- C2 amended: `SetProductionMode(true)` selects the production URL for all
subsequent submissions; `SetProductionMode(false)` is a no-op (src/xpo.go:192
has no else branch), so it leaves whatever URL is current — the test URL is
used only as long as production mode was never enabled (it is the initial
value).  Every submission's pickup call targets exactly the stored
`xpoURL`. -/
theorem xpoURL_selection :
    (∀ s : XpoState, (SetProductionMode true s).xpoURL = xpoProductionURL)
    ∧ (∀ s : XpoState, SetProductionMode false s = s)
    ∧ initialState.xpoURL = xpoTestURL
    ∧ (∀ (pri : PickupRqstInfo) (s : XpoState) (tr pr : HttpResult),
        (RequestPickup pri s tr pr).calls = [⟨xpoTokenURL, s.timeout⟩]
        ∨ (RequestPickup pri s tr pr).calls
            = [⟨xpoTokenURL, s.timeout⟩, ⟨s.xpoURL, s.timeout⟩]) :=
  ⟨fun _ => rfl, fun _ => rfl, rfl, requestPickup_calls_shape⟩

/-- C10: the timeout defaults to exactly 10 seconds (10 × 10⁹ nanoseconds)
and is the `http.Client` timeout of both the token call and the pickup call;
`SetTimeout(d)` stores `d * time.Second` (int64, wrapping), i.e. the
duration-typed argument is interpreted as a count of seconds — so passing
five seconds already expressed as a duration (5 × 10⁹ ns) stores a timeout
one billion times larger (5 × 10¹⁸ ns). -/
theorem timeout_default_and_setTimeout :
    initialState.timeout = 10 * nsPerSecond
    ∧ 10 * nsPerSecond = (10000000000 : Int)
    ∧ (∀ (d : Int) (s : XpoState),
        (SetTimeout d s).timeout = int64Wrap (d * nsPerSecond))
    ∧ (∀ (s : XpoState) (res : HttpResult),
        ((getRequestToken s res).calls.all (fun c => c.timeout == s.timeout)) = true)
    ∧ (∀ (pri : PickupRqstInfo) (s : XpoState) (tr pr : HttpResult),
        ((RequestPickup pri s tr pr).calls.all (fun c => c.timeout == s.timeout)) = true)
    ∧ (SetTimeout (5 * nsPerSecond) initialState).timeout
        = nsPerSecond * (5 * nsPerSecond) := by
  refine ⟨rfl, rfl, fun d s => rfl, fun s res => ?_, fun pri s tr pr => ?_, by decide⟩
  · rcases res with m | m | b
    · simp [getRequestToken]
    · simp [getRequestToken]
    · rcases h : decodeTokenBody b with _ | t
      · simp [getRequestToken, h]
      · by_cases hb : t.BearerToken = "" <;> simp [getRequestToken, h, hb]
  · rcases requestPickup_calls_shape pri s tr pr with h | h <;> simp [h]

theorem stringAppendAssoc (a b c : String) : (a ++ b) ++ c = a ++ (b ++ c) := by
  rcases a with ⟨a⟩; rcases b with ⟨b⟩; rcases c with ⟨c⟩
  show String.mk ((a ++ b) ++ c) = String.mk (a ++ (b ++ c))
  rw [List.append_assoc]

/-- C3: when `RequestPickup` reads a response body it first attempts the JSON
success shape; if that fails it attempts the XML fault shape on the same
bytes; if both fail it returns the wrapped unmarshal (parse) error, and if
the fault shape parses it returns an error whose message is exactly the
fault's description — in particular, the canned fault with description
"Missing shipper" yields the error "Missing shipper". -/
theorem responseParsing_json_then_xml :
    (∀ (pri : PickupRqstInfo) (s : XpoState) (tr : HttpResult) (bt body : String),
      (getRequestToken s tr).bearer = .ok bt →
      decodeSuccessBody body = none →
        (parseFault body = none →
          (RequestPickup pri s tr (.body body)).err
            = some ("xpo.RequestPickup - could not unmarshal response: "
                ++ xmlUnmarshalErrorText))
        ∧ (∀ f, parseFault body = some f →
            (RequestPickup pri s tr (.body body)).err = some f.Description))
    ∧ (∀ (pri : PickupRqstInfo) (s : XpoState) (tr : HttpResult) (bt : String),
        (getRequestToken s tr).bearer = .ok bt →
        (RequestPickup pri s tr (.body cannedFaultBody)).err
          = some "Missing shipper") := by
  constructor
  · intro pri s tr bt body h hd
    constructor
    · intro hf
      simp [RequestPickup, h, hd, hf]
    · intro f hf
      simp [RequestPickup, h, hd, hf]
  · intro pri s tr bt h
    have hd : decodeSuccessBody cannedFaultBody = none := by decide
    have hf : parseFault cannedFaultBody
        = some ⟨"400", "Validation", "Bad", "Missing shipper"⟩ := by decide
    simp [RequestPickup, h, hd, hf]

/-- C3 witness: at a concrete state and transport, a body that is neither
valid JSON nor valid XML yields the wrapped unmarshal error, and the canned
fault body yields the error "Missing shipper". -/
theorem responseParsing_json_then_xml_witness :
    (RequestPickup priZero stateWithCreds (.body cannedTokenBody)
        (.body garbageBody)).err
      = some ("xpo.RequestPickup - could not unmarshal response: "
          ++ xmlUnmarshalErrorText)
    ∧ (RequestPickup priZero stateWithCreds (.body cannedTokenBody)
        (.body cannedFaultBody)).err = some "Missing shipper" := by
  have h : (getRequestToken stateWithCreds (.body cannedTokenBody)).bearer
      = .ok "tok123" := rfl
  exact ⟨(responseParsing_json_then_xml.1 priZero stateWithCreds
            (.body cannedTokenBody) "tok123" garbageBody h (by decide)).1 (by decide),
         responseParsing_json_then_xml.2 priZero stateWithCreds
            (.body cannedTokenBody) "tok123" h⟩

/-- C4: if the body parses as the JSON success shape but the nested
confirmation number is empty, `RequestPickup` fails anyway: it logs the
failure tag and the raw body, makes a best-effort fault-shape parse whose
rendering it also logs, and returns the generic
"xpo.RequestPickup - pickup request failed" error. -/
theorem emptyConfirmation_logical_failure :
    ∀ (pri : PickupRqstInfo) (s : XpoState) (tr : HttpResult)
      (bt body : String) (resp : SuccessfulPickupResponse),
      (getRequestToken s tr).bearer = .ok bt →
      decodeSuccessBody body = some resp →
      resp.Data.ConfirmationNbr = "" →
      (RequestPickup pri s tr (.body body)).err
          = some "xpo.RequestPickup - pickup request failed"
      ∧ body ∈ (RequestPickup pri s tr (.body body)).logs
      ∧ formatFault ((parseFault body).getD faultZero)
          ∈ (RequestPickup pri s tr (.body body)).logs := by
  intro pri s tr bt body resp h hd hc
  refine ⟨?_, ?_, ?_⟩ <;> simp [RequestPickup, h, hd, hc]

/-- C4 witness: the canned valid-JSON body with empty `confirmationNbr`
triggers the logical-failure error and the raw body is logged. -/
theorem emptyConfirmation_logical_failure_witness :
    (RequestPickup priZero stateWithCreds (.body cannedTokenBody)
        (.body cannedEmptyConfBody)).err
      = some "xpo.RequestPickup - pickup request failed"
    ∧ cannedEmptyConfBody ∈ (RequestPickup priZero stateWithCreds
        (.body cannedTokenBody) (.body cannedEmptyConfBody)).logs := by
  have h := emptyConfirmation_logical_failure priZero stateWithCreds
    (.body cannedTokenBody) "tok123" cannedEmptyConfBody ⟨"0", "123", ⟨""⟩⟩
    rfl (by decide) rfl
  exact ⟨h.1, h.2.1⟩

/-- C5: given the canned response body
`{"code":"0","transactionTimestamp":"123","data":{"confirmationNbr":"ABC123"}}`,
`RequestPickup` returns the parsed response — whose confirmation number is
"ABC123" — and a nil error. -/
theorem cannedSuccess_returns_ABC123 :
    ∀ (pri : PickupRqstInfo) (s : XpoState) (tr : HttpResult) (bt : String),
      (getRequestToken s tr).bearer = .ok bt →
      (RequestPickup pri s tr (.body cannedSuccessBody)).response
          = ⟨"0", "123", ⟨"ABC123"⟩⟩
      ∧ (RequestPickup pri s tr (.body cannedSuccessBody)).err = none := by
  intro pri s tr bt h
  have hd : decodeSuccessBody cannedSuccessBody = some ⟨"0", "123", ⟨"ABC123"⟩⟩ := by
    decide
  refine ⟨?_, ?_⟩ <;> simp [RequestPickup, h, hd]

/-- C5 witness: a fully concrete run returning confirmation "ABC123" and no
error. -/
theorem cannedSuccess_returns_ABC123_witness :
    (RequestPickup priZero stateWithCreds (.body cannedTokenBody)
        (.body cannedSuccessBody)).response = ⟨"0", "123", ⟨"ABC123"⟩⟩
    ∧ (RequestPickup priZero stateWithCreds (.body cannedTokenBody)
        (.body cannedSuccessBody)).err = none :=
  cannedSuccess_returns_ABC123 priZero stateWithCreds (.body cannedTokenBody)
    "tok123" rfl

/-- C9: whenever `RequestPickup` returns a nil error, the returned response's
nested confirmation number is a non-empty string — success and an empty
confirmation number never coincide. -/
theorem success_implies_nonempty_confirmation :
    ∀ (pri : PickupRqstInfo) (s : XpoState) (tr pr : HttpResult),
      (RequestPickup pri s tr pr).err = none →
      (RequestPickup pri s tr pr).response.Data.ConfirmationNbr ≠ "" := by
  intro pri s tr pr h
  rcases tr with m | m | b
  · simp [RequestPickup, getRequestToken] at h
  · simp [RequestPickup, getRequestToken] at h
  · rcases ht : decodeTokenBody b with _ | t
    · simp [RequestPickup, getRequestToken, ht] at h
    · by_cases hb : t.BearerToken = ""
      · simp [RequestPickup, getRequestToken, ht, hb] at h
      · rcases pr with m2 | m2 | body
        · simp [RequestPickup, getRequestToken, ht, hb] at h
        · simp [RequestPickup, getRequestToken, ht, hb] at h
        · rcases hd : decodeSuccessBody body with _ | resp
          · rcases hf : parseFault body with _ | f <;>
              simp [RequestPickup, getRequestToken, ht, hb, hd, hf] at h
          · by_cases hc : resp.Data.ConfirmationNbr = ""
            · simp [RequestPickup, getRequestToken, ht, hb, hd, hc] at h
            · simp [RequestPickup, getRequestToken, ht, hb, hd, hc]

/-- C9 witness: a concrete successful run has a non-empty confirmation
number. -/
theorem success_implies_nonempty_confirmation_witness :
    (RequestPickup priZero stateWithCreds (.body cannedTokenBody)
        (.body cannedSuccessBody)).response.Data.ConfirmationNbr ≠ "" :=
  success_implies_nonempty_confirmation priZero stateWithCreds
    (.body cannedTokenBody) (.body cannedSuccessBody) (by decide)

/-- C7 counterexample: `getRequestToken` performs no credential check — with
username, password and access token all unset it still makes the token HTTP
call and, when the transport returns a well-formed token body, succeeds and
returns the parsed bearer token, contrary to the claim that it fails when
credentials are unset. -/
theorem getRequestToken_no_credential_check_counterexample :
    initialState.username = "" ∧ initialState.password = ""
    ∧ initialState.accessToken = ""
    ∧ (getRequestToken initialState (.body cannedTokenBody)).bearer = .ok "tok123"
    ∧ (getRequestToken initialState (.body cannedTokenBody)).calls
        = [⟨xpoTokenURL, 10 * nsPerSecond⟩] :=
  ⟨rfl, rfl, rfl, rfl, rfl⟩

/-- C7 amended: `getRequestToken` fails iff the transport call fails, the
body read fails, the body does not JSON-parse into the token shape, or the
parsed bearer token field is empty; in every other case it succeeds and
returns the bearer token string parsed from the response.  Credential
presence is not checked by `getRequestToken` itself (the — ineffective —
check sits in `RequestPickup`, src/xpo.go:230). -/
theorem getRequestToken_failure_characterization :
    (∀ (s : XpoState) (m : String),
        (getRequestToken s (.doError m)).bearer = .error m)
    ∧ (∀ (s : XpoState) (m : String),
        (getRequestToken s (.readError m)).bearer = .error m)
    ∧ (∀ (s : XpoState) (b : String), decodeTokenBody b = none →
        (getRequestToken s (.body b)).bearer = .error jsonUnmarshalErrorText)
    ∧ (∀ (s : XpoState) (b : String) (t : TokenResponse),
        decodeTokenBody b = some t → t.BearerToken = "" →
        (getRequestToken s (.body b)).bearer
          = .error "could not get bearer token from response body")
    ∧ (∀ (s : XpoState) (b : String) (t : TokenResponse),
        decodeTokenBody b = some t → t.BearerToken ≠ "" →
        (getRequestToken s (.body b)).bearer = .ok t.BearerToken) := by
  refine ⟨fun s m => rfl, fun s m => rfl, ?_, ?_, ?_⟩
  · intro s b hb
    simp [getRequestToken, hb]
  · intro s b t hb he
    simp [getRequestToken, hb, he]
  · intro s b t hb he
    simp [getRequestToken, hb, he]

/-- C7 witness: the characterization applied at concrete bodies — invalid
JSON fails with the codec error, `{}` (no bearer token) fails with the
empty-token error, and a body carrying a token succeeds with that token. -/
theorem getRequestToken_failure_characterization_witness :
    (getRequestToken stateWithCreds (.body garbageBody)).bearer
        = .error jsonUnmarshalErrorText
    ∧ (getRequestToken stateWithCreds (.body "\x7b\x7d")).bearer
        = .error "could not get bearer token from response body"
    ∧ (getRequestToken stateWithCreds (.body cannedTokenBody)).bearer
        = .ok "tok123" :=
  ⟨getRequestToken_failure_characterization.2.2.1 stateWithCreds garbageBody
      (by decide),
   getRequestToken_failure_characterization.2.2.2.1 stateWithCreds "\x7b\x7d"
      tokenResponseZero (by decide) rfl,
   getRequestToken_failure_characterization.2.2.2.2 stateWithCreds
      cannedTokenBody ⟨"tok123", "", "", "", 0⟩ (by decide) (by decide)⟩

/-- C8 counterexample: the error returned when the carrier's fault payload
parses is `errors.New(errorData.Description)` (src/xpo.go:273) — it carries
only the fault's description and no tag identifying the step: for the canned
fault the returned message is exactly "Missing shipper", which does not begin
with "xpo.RequestPickup - ", contradicting the claim that every returned
error, including this one, is wrapped with a step tag. -/
theorem fault_error_untagged_counterexample :
    (RequestPickup priZero stateWithCreds (.body cannedTokenBody)
        (.body cannedFaultBody)).err = some "Missing shipper"
    ∧ ("xpo.RequestPickup - ".data.isPrefixOf "Missing shipper".data) = false := by
  exact ⟨by decide, by decide⟩

/-- C8 amended: every error `RequestPickup` returns carries the
"xpo.RequestPickup - " step tag **except** the one produced when the
carrier's fault payload parses, which is exactly the fault's description
text with no tag.  (Diagnostic logging is a separate output of the model and
the returned error is fully characterized here independent of it.) -/
theorem requestPickup_error_tagging :
    ∀ (pri : PickupRqstInfo) (s : XpoState) (tr pr : HttpResult) (e : String),
      (RequestPickup pri s tr pr).err = some e →
      (∃ rest, e = "xpo.RequestPickup - " ++ rest)
      ∨ (∃ body f, pr = .body body ∧ decodeSuccessBody body = none
          ∧ parseFault body = some f ∧ e = f.Description) := by
  intro pri s tr pr e h
  rcases tr with m | m | b
  · left
    simp [RequestPickup, getRequestToken] at h
    exact ⟨"could not get token: " ++ m, by rw [← h]; rfl⟩
  · left
    simp [RequestPickup, getRequestToken] at h
    exact ⟨"could not get token: " ++ m, by rw [← h]; rfl⟩
  · rcases ht : decodeTokenBody b with _ | t
    · left
      simp [RequestPickup, getRequestToken, ht] at h
      exact ⟨"could not get token: " ++ jsonUnmarshalErrorText,
        by rw [← h]; rfl⟩
    · by_cases hb : t.BearerToken = ""
      · left
        simp [RequestPickup, getRequestToken, ht, hb] at h
        exact ⟨"could not get token: could not get bearer token from response body",
          by rw [← h]; rfl⟩
      · rcases pr with m2 | m2 | body
        · left
          simp [RequestPickup, getRequestToken, ht, hb] at h
          exact ⟨"could not make post request: " ++ m2,
            by rw [← h]; rfl⟩
        · left
          simp [RequestPickup, getRequestToken, ht, hb] at h
          exact ⟨"could not read response: " ++ m2,
            by rw [← h]; rfl⟩
        · rcases hd : decodeSuccessBody body with _ | resp
          · rcases hf : parseFault body with _ | f
            · left
              simp [RequestPickup, getRequestToken, ht, hb, hd, hf] at h
              exact ⟨"could not unmarshal response: " ++ xmlUnmarshalErrorText,
                by rw [← h]; rfl⟩
            · right
              simp [RequestPickup, getRequestToken, ht, hb, hd, hf] at h
              exact ⟨body, f, rfl, hd, hf, h.symm⟩
          · by_cases hc : resp.Data.ConfirmationNbr = ""
            · left
              simp [RequestPickup, getRequestToken, ht, hb, hd, hc] at h
              exact ⟨"pickup request failed", by rw [← h]; rfl⟩
            · simp [RequestPickup, getRequestToken, ht, hb, hd, hc] at h

/-- C8 witness: a concrete transport failure is returned wrapped with the
step tag. -/
theorem requestPickup_error_tagging_witness :
    (RequestPickup priZero stateWithCreds (.doError "boom")
        (.body cannedSuccessBody)).err
      = some "xpo.RequestPickup - could not get token: boom"
    ∧ ((∃ rest, "xpo.RequestPickup - could not get token: boom"
          = "xpo.RequestPickup - " ++ rest)
       ∨ (∃ body f, (HttpResult.body cannedSuccessBody) = .body body
            ∧ decodeSuccessBody body = none ∧ parseFault body = some f
            ∧ "xpo.RequestPickup - could not get token: boom" = f.Description)) :=
  ⟨by decide,
   requestPickup_error_tagging priZero stateWithCreds (.doError "boom")
     (.body cannedSuccessBody) "xpo.RequestPickup - could not get token: boom"
     (by decide)⟩
